import Mathlib

/-!
Verification development for the LVU Qwen2.5-VL integration
(`src/lvu/models/qwen25_vl.py`).

The Python source is shallowly embedded: tensors become lists of integers,
dicts become structures with optional fields, exceptions become `Except`,
and the mutable global configuration is threaded explicitly.  Numeric code
that Python runs in floats is modelled over `ℚ` (values involved in the
claims are exactly representable).
-/

namespace LVU

/-! ## Frame-count selection utility (`smart_nframes` and its helpers)

The helpers `round_by_factor`, `ceil_by_factor`, `floor_by_factor` and the
constants `FRAME_FACTOR`, `FPS`, `FPS_MIN_FRAMES`, `FPS_MAX_FRAMES` come from
the external `qwen_vl_utils.vision_process` module, which the repository
star-imports and whose `smart_nframes` it replaces; they are embedded from
that module's well-known definitions. -/

/-- The frame rounding factor of `qwen_vl_utils.vision_process`. -/
def FRAME_FACTOR : ℕ := 2

/-- Default extraction fps of `qwen_vl_utils.vision_process`. -/
def FPS : ℚ := 2

/-- Default minimum frame bound of `qwen_vl_utils.vision_process`. -/
def FPS_MIN_FRAMES : ℕ := 4

/-- Default maximum frame bound of `qwen_vl_utils.vision_process`. -/
def FPS_MAX_FRAMES : ℕ := 768

/-- Python's built-in `round` on an exact rational: round half to even. -/
def pyRound (x : ℚ) : ℤ :=
  let f := ⌊x⌋
  let r := x - (f : ℚ)
  if r < 1/2 then f
  else if 1/2 < r then f + 1
  else if f % 2 = 0 then f else f + 1

/-- `round_by_factor(number, factor) = round(number / factor) * factor`. -/
def round_by_factor (number : ℚ) (factor : ℕ) : ℤ :=
  pyRound (number / (factor : ℚ)) * (factor : ℤ)

/-- `ceil_by_factor(number, factor) = math.ceil(number / factor) * factor`. -/
def ceil_by_factor (number : ℚ) (factor : ℕ) : ℤ :=
  ⌈number / (factor : ℚ)⌉ * (factor : ℤ)

/-- `floor_by_factor(number, factor) = math.floor(number / factor) * factor`. -/
def floor_by_factor (number : ℚ) (factor : ℕ) : ℤ :=
  ⌊number / (factor : ℚ)⌋ * (factor : ℤ)

/-- The video-configuration dict `ele` passed to `smart_nframes`: the keys
`nframes`, `fps`, `min_frames`, `max_frames` may each be present or absent. -/
structure VideoEle where
  nframes : Option ℕ
  fps : Option ℚ
  min_frames : Option ℕ
  max_frames : Option ℕ
deriving DecidableEq

/-- The local variable `nframes` computed by the body of `smart_nframes`
(qwen25_vl.py lines 135-146): the explicit-`nframes` branch computes
`min(round_by_factor(nframes, FRAME_FACTOR), total_frames)` (the `min` is the
repository's added safety line), the fps branch clamps
`total_frames / video_fps * fps` between the rounded min/max frame bounds and
`total_frames` and floors to the factor. -/
def smart_nframes_value (ele : VideoEle) (total_frames : ℕ) (video_fps : ℚ) : ℤ :=
  match ele.nframes with
  | some n =>
      min (round_by_factor (n : ℚ) FRAME_FACTOR) (total_frames : ℤ)
  | none =>
      let fps := ele.fps.getD FPS
      let min_frames :=
        ceil_by_factor ((ele.min_frames.getD FPS_MIN_FRAMES : ℕ) : ℚ) FRAME_FACTOR
      let max_frames :=
        floor_by_factor
          ((ele.max_frames.getD (min FPS_MAX_FRAMES total_frames) : ℕ) : ℚ)
          FRAME_FACTOR
      let nf : ℚ := (total_frames : ℚ) / video_fps * fps
      let nf2 : ℚ :=
        min (min (max nf (min_frames : ℚ)) ((max_frames : ℚ))) ((total_frames : ℚ))
      floor_by_factor nf2 FRAME_FACTOR

/-- The repository's replacement `smart_nframes` (qwen25_vl.py lines 111-149):
the assertion that `fps` and `nframes` are not both given, then the computed
count `smart_nframes_value`, then the final interval guard that raises
`ValueError` when the computed count leaves `[FRAME_FACTOR, total_frames]`. -/
def smart_nframes (ele : VideoEle) (total_frames : ℕ) (video_fps : ℚ) :
    Except String ℤ :=
  if ele.fps.isSome ∧ ele.nframes.isSome then
    .error "Only accept either fps or nframes"
  else
    let nframes : ℤ := smart_nframes_value ele total_frames video_fps
    if (FRAME_FACTOR : ℤ) ≤ nframes ∧ nframes ≤ (total_frames : ℤ) then
      .ok nframes
    else
      .error "nframes should be in interval [FRAME_FACTOR, total_frames]"

/-- Every normally returned value is the computed `smart_nframes_value`, and it
passed the final interval guard. -/
lemma smart_nframes_ok (ele : VideoEle) (total_frames : ℕ) (video_fps : ℚ)
    (n : ℤ) (h : smart_nframes ele total_frames video_fps = .ok n) :
    n = smart_nframes_value ele total_frames video_fps ∧
      (FRAME_FACTOR : ℤ) ≤ n ∧ n ≤ (total_frames : ℤ) := by
  unfold smart_nframes at h
  split at h
  · exact absurd h (by simp)
  · simp only [] at h
    split at h
    · rename_i hguard
      cases h
      exact ⟨rfl, hguard⟩
    · exact absurd h (by simp)

/-- In the fps branch the computed count is a multiple of `FRAME_FACTOR`; in
the explicit-`nframes` branch it is either such a multiple or the cap
`total_frames` itself. -/
lemma smart_nframes_value_dvd_or_cap (ele : VideoEle) (total_frames : ℕ)
    (video_fps : ℚ) :
    (FRAME_FACTOR : ℤ) ∣ smart_nframes_value ele total_frames video_fps ∨
      (ele.nframes.isSome = true ∧
        smart_nframes_value ele total_frames video_fps = (total_frames : ℤ)) := by
  cases h : ele.nframes with
  | some m =>
      simp only [smart_nframes_value, h]
      rcases min_cases (round_by_factor (m : ℚ) FRAME_FACTOR) ((total_frames : ℤ))
        with ⟨hmin, _⟩ | ⟨hmin, _⟩
      · left
        rw [hmin]
        exact dvd_mul_left _ _
      · right
        rw [hmin]
        simp [h]
  | none =>
      simp only [smart_nframes_value, h]
      left
      exact dvd_mul_left _ _

/-- C3 counterexample: with an explicit request `nframes = 7` against a video of
`total_frames = 5`, `smart_nframes` returns normally with the value 5, which is
not divisible by `FRAME_FACTOR = 2` — refuting the claim that every normally
returned count is divisible by the rounding factor. -/
theorem C3_counterexample :
    smart_nframes ⟨some 7, none, none, none⟩ 5 10 = .ok 5 ∧
      ¬ ((FRAME_FACTOR : ℤ) ∣ 5) := by
  constructor
  · simp only [smart_nframes, smart_nframes_value, round_by_factor, pyRound,
      FRAME_FACTOR]
    norm_num
  · norm_num [FRAME_FACTOR]

/-- C3 (amended): every normally returned frame count lies within
`[FRAME_FACTOR, total_frames]`; it is moreover divisible by `FRAME_FACTOR`
except possibly in the explicit-`nframes` branch when the count was capped at
`total_frames` (the repository's added safety `min`, which can produce an odd
count). -/
theorem C3_smart_nframes_bounds (ele : VideoEle) (total_frames : ℕ)
    (video_fps : ℚ) (n : ℤ)
    (h : smart_nframes ele total_frames video_fps = .ok n) :
    ((FRAME_FACTOR : ℤ) ≤ n ∧ n ≤ (total_frames : ℤ)) ∧
      ((FRAME_FACTOR : ℤ) ∣ n ∨
        (ele.nframes.isSome = true ∧ n = (total_frames : ℤ))) := by
  obtain ⟨hval, hlo, hhi⟩ := smart_nframes_ok ele total_frames video_fps n h
  refine ⟨⟨hlo, hhi⟩, ?_⟩
  rw [hval]
  exact smart_nframes_value_dvd_or_cap ele total_frames video_fps

/-- Witness for C3 at the concrete fps-branch input of the spec's example. -/
theorem C3_smart_nframes_bounds_witness :
    (((FRAME_FACTOR : ℤ) ≤ 20 ∧ (20 : ℤ) ≤ ((100 : ℕ) : ℤ)) ∧
      ((FRAME_FACTOR : ℤ) ∣ 20 ∨
        ((VideoEle.mk none (some 2) (some 4) (some 50)).nframes.isSome = true ∧
          (20 : ℤ) = ((100 : ℕ) : ℤ)))) :=
  C3_smart_nframes_bounds ⟨none, some 2, some 4, some 50⟩ 100 10 20 (by
    simp only [smart_nframes, smart_nframes_value, floor_by_factor,
      ceil_by_factor, FRAME_FACTOR, FPS, FPS_MIN_FRAMES, FPS_MAX_FRAMES]
    norm_num)

/-- C4: with an explicit request `nframes = 7` and `total_frames = 5`,
`smart_nframes` returns `min(round_by_factor(7, FRAME_FACTOR), 5)`, i.e. the
rounded count 8 capped at the native frame count, which is 5. -/
theorem C4_explicit_nframes_capped :
    smart_nframes ⟨some 7, none, none, none⟩ 5 10 =
        .ok (min (round_by_factor ((7 : ℕ) : ℚ) FRAME_FACTOR) ((5 : ℕ) : ℤ)) ∧
      round_by_factor ((7 : ℕ) : ℚ) FRAME_FACTOR = 8 ∧
      min (round_by_factor ((7 : ℕ) : ℚ) FRAME_FACTOR) ((5 : ℕ) : ℤ) = 5 := by
  have hr : round_by_factor ((7 : ℕ) : ℚ) FRAME_FACTOR = 8 := by
    simp only [round_by_factor, pyRound, FRAME_FACTOR]
    norm_num
  refine ⟨?_, hr, ?_⟩
  · simp only [smart_nframes, smart_nframes_value, FRAME_FACTOR, hr,
      round_by_factor, pyRound]
    norm_num
  · rw [hr]
    norm_num

/-- C5: with `total_frames = 100`, `video_fps = 10`, requested `fps = 2`,
`min_frames = 4`, `max_frames = 50`, `smart_nframes` returns 20, which is the
greatest multiple of `FRAME_FACTOR` that is at least 4 and at most 20. -/
theorem C5_fps_branch_example :
    smart_nframes ⟨none, some 2, some 4, some 50⟩ 100 10 = .ok 20 ∧
      IsGreatest {k : ℤ | (FRAME_FACTOR : ℤ) ∣ k ∧ 4 ≤ k ∧ k ≤ 20} 20 := by
  constructor
  · simp only [smart_nframes, smart_nframes_value, floor_by_factor,
      ceil_by_factor, FRAME_FACTOR, FPS, FPS_MIN_FRAMES, FPS_MAX_FRAMES]
    norm_num
  · constructor
    · refine ⟨by norm_num [FRAME_FACTOR], by norm_num, le_refl _⟩
    · intro k hk
      exact hk.2.2

/-! ## Data model: configurations and the patched decoder layer -/

/-- The `extra_kwargs` dict of the configuration, with the two keys
`run_lvu_model` reads.  The outer `Option` is key presence, the inner one is a
present-but-`None` value. -/
structure ExtraKwargs where
  max_pixels : Option (Option ℕ)
  min_pixels : Option (Option ℕ)
deriving DecidableEq

/-- Global pruning configuration (`LVUConfig` of `lvu/lvu_config.py`), embedded
with the fields `qwen25_vl.py` reads: the pruning enable flag, top-k retention
target, query-time pruning flag, video group size, adaptive-local-attention
flag, cache directory, frame extraction rate/count, progress toggle, and extra
processor kwargs. -/
structure LVUConfig where
  enable : Bool
  top_k : Option ℕ
  do_top_k_for_query : Bool
  video_group_size : Option ℕ
  adaptive_local_attention : Bool
  cache_dir : Option String
  fps : Option ℚ
  num_frames : Option ℕ
  use_tqdm : Bool
  extra_kwargs : Option ExtraKwargs
deriving DecidableEq

/-- Per-layer configuration (`LVULayerConfig`), as installed by
`init_lvu_model`: the layer index, the terminal-layer marker, the
prune-for-next-layer flag, and the reference to the shared global
configuration. -/
structure LVULayerConfig where
  layer_idx : ℕ
  is_last_layer : Bool
  prune_for_next_layer : Bool
  lvu_config : LVUConfig
deriving DecidableEq

/-- Tensors are embedded as integer lists (their numeric content is opaque to
the control flow the claims are about). -/
abbrev Tensor := List ℤ

/-- Elementwise residual addition of two hidden-state tensors. -/
def tensorAdd (a b : Tensor) : Tensor := List.zipWith (· + ·) a b

/-- The polymorphic first argument/first output of the patched layer forward:
either a plain hidden-state tensor, or the 5-tuple
`(hidden_states, attention_mask, position_ids, cache_position,
position_embeddings)` produced by a pruning layer. -/
inductive HiddenInput where
  | plain (hidden_states : Tensor)
  | pruned (hidden_states : Tensor) (attention_mask : Option Tensor)
      (position_ids : Option Tensor) (cache_position : Option Tensor)
      (position_embeddings : Option (Tensor × Tensor))
deriving DecidableEq

/-- A `HiddenInput` is a plain hidden-state tensor (not the 5-tuple). -/
def HiddenInput.isPlain : HiddenInput → Bool
  | .plain _ => true
  | .pruned _ _ _ _ _ => false

/-- The six values returned by `post_process_kv_cache` (from `lvu/utils.py`):
the reconciled hidden states, attention mask, position ids, cache position,
rotary position embeddings, and key-value cache. -/
structure PostAttnState where
  hidden_states : Tensor
  attention_mask : Option Tensor
  position_ids : Option Tensor
  cache_position : Option Tensor
  position_embeddings : Option (Tensor × Tensor)
  present_key_value : Tensor

/-- The type of `post_process_kv_cache`.  Its implementation lives in
`lvu/utils.py`, outside the embedded file, so the layer forward is
parameterized by an arbitrary function of this type (the claims proved here
hold for every implementation). -/
abbrev PostProcessFn :=
  Tensor → Option Tensor → Option Tensor → Option Tensor →
    Option (Tensor × Tensor) → Tensor → Tensor → LVULayerConfig → PostAttnState

/-- One decoder layer object as `init_lvu_model` leaves it: the sublayers the
patched forward calls (`input_layernorm`, `self_attn`,
`post_attention_layernorm`, `mlp`) and the installed `lvu_layer_config`.
`self_attn` takes (hidden_states, attention_mask, position_ids,
past_key_value, output_attentions, use_cache, cache_position,
position_embeddings) and returns (hidden_states, attn_weights,
present_key_value). -/
structure DecoderLayer where
  input_layernorm : Tensor → Tensor
  self_attn : Tensor → Option Tensor → Option Tensor → Option Tensor → Bool →
    Bool → Option Tensor → Option (Tensor × Tensor) → Tensor × Tensor × Tensor
  post_attention_layernorm : Tensor → Tensor
  mlp : Tensor → Tensor
  lvu_layer_config : LVULayerConfig

/-- The patched decoder layer forward (qwen25_vl.py lines 16-106): unpack a
tuple input from a pruning predecessor, run layernorm + self-attention +
residual, reconcile through `post_process_kv_cache`, run the MLP block, and
package the output as the 5-tuple exactly when
`lvu_config.enable and lvu_layer_config.prune_for_next_layer and not
lvu_layer_config.is_last_layer`.  The returned triple is the first output
element, the optional attention weights (when `output_attentions`), and the
optional present key-value (when `use_cache`). -/
def lvu_qwen25_vl_decoder_layer_forward (self : DecoderLayer)
    (post_process_kv_cache : PostProcessFn)
    (hidden_states : HiddenInput)
    (attention_mask : Option Tensor) (position_ids : Option Tensor)
    (past_key_value : Option Tensor)
    (output_attentions : Bool) (use_cache : Bool)
    (cache_position : Option Tensor)
    (position_embeddings : Option (Tensor × Tensor)) :
    HiddenInput × Option Tensor × Option Tensor :=
  let lvu_layer_config := self.lvu_layer_config
  let lvu_config := lvu_layer_config.lvu_config
  let unpacked :
      Tensor × Option Tensor × Option Tensor × Option Tensor ×
        Option (Tensor × Tensor) :=
    match hidden_states with
    | .plain h =>
        (h, attention_mask, position_ids, cache_position, position_embeddings)
    | .pruned h am pid cp pe => (h, am, pid, cp, pe)
  let hs0 := unpacked.1
  let am := unpacked.2.1
  let pid := unpacked.2.2.1
  let cp := unpacked.2.2.2.1
  let pe := unpacked.2.2.2.2
  let residual := hs0
  let hs1 := self.input_layernorm hs0
  let attn := self.self_attn hs1 am pid past_key_value output_attentions
    use_cache cp pe
  let self_attn_weights := attn.2.1
  let hs2 := tensorAdd residual attn.1
  let st := post_process_kv_cache hs2 am pid cp pe self_attn_weights attn.2.2
    lvu_layer_config
  let residual2 := st.hidden_states
  let hs3 := self.post_attention_layernorm st.hidden_states
  let hs4 := self.mlp hs3
  let hs5 := tensorAdd residual2 hs4
  let out : HiddenInput :=
    if lvu_config.enable ∧ lvu_layer_config.prune_for_next_layer ∧
        ¬ lvu_layer_config.is_last_layer then
      .pruned hs5 st.attention_mask st.position_ids st.cache_position
        st.position_embeddings
    else
      .plain hs5
  (out,
    if output_attentions then some self_attn_weights else none,
    if use_cache then some st.present_key_value else none)

/-- C1: for a terminal decoder layer the patched forward never packages its
output as the 5-tuple — whatever the pruning configuration (enable flag,
prune_for_next_layer), the reconciler implementation, the sublayers, and the
input form, the first output element is a plain hidden-state tensor. -/
theorem C1_last_layer_output_plain (self : DecoderLayer)
    (ppkv : PostProcessFn) (hs : HiddenInput)
    (am pid pkv : Option Tensor) (oa uc : Bool) (cp : Option Tensor)
    (pe : Option (Tensor × Tensor))
    (hlast : self.lvu_layer_config.is_last_layer = true) :
    ((lvu_qwen25_vl_decoder_layer_forward self ppkv hs am pid pkv oa uc cp
        pe).1).isPlain = true := by
  cases hs <;>
    simp [lvu_qwen25_vl_decoder_layer_forward, HiddenInput.isPlain, hlast]

/-- A concrete global configuration with pruning fully enabled. -/
def exampleEnabledConfig : LVUConfig :=
  { enable := true, top_k := some 1, do_top_k_for_query := true,
    video_group_size := some 4, adaptive_local_attention := false,
    cache_dir := none, fps := some 2, num_frames := none, use_tqdm := false,
    extra_kwargs := none }

/-- A concrete terminal decoder layer whose configuration asks for pruning. -/
def exampleLastLayer : DecoderLayer :=
  { input_layernorm := id,
    self_attn := fun h _ _ _ _ _ _ _ => (h, [], []),
    post_attention_layernorm := id,
    mlp := id,
    lvu_layer_config :=
      { layer_idx := 3, is_last_layer := true, prune_for_next_layer := true,
        lvu_config := exampleEnabledConfig } }

/-- A reconciler implementation that keeps everything. -/
def examplePostProcess : PostProcessFn :=
  fun h am pid cp pe _ kv _ => ⟨h, am, pid, cp, pe, kv⟩

/-- Witness for C1: the concrete terminal layer, with pruning enabled and
requested, still emits a plain tensor as its first output element. -/
theorem C1_last_layer_output_plain_witness :
    ((lvu_qwen25_vl_decoder_layer_forward exampleLastLayer examplePostProcess
        (.plain [1, 2]) none none none false true none none).1).isPlain =
      true :=
  C1_last_layer_output_plain exampleLastLayer examplePostProcess
    (.plain [1, 2]) none none none false true none none rfl

/-! ## `run_lvu_model`: building the video content dict -/

/-- The `video_content` dict built by `run_lvu_model` (lines 212-225): the
video path plus the optionally installed `max_pixels`, `min_pixels`, and
exactly one of `fps` / `nframes`. -/
structure VideoContent where
  video : String
  max_pixels : Option ℕ
  min_pixels : Option ℕ
  fps : Option ℚ
  nframes : Option ℕ
deriving DecidableEq

/-- The input-resolution phase of `run_lvu_model` (lines 204-225): read `fps`,
`num_frames`, and the pixel bounds from the configuration, build the
`video_content` dict, install `fps` if set, otherwise `nframes` if set, and
otherwise raise `ValueError("Either fps or num_frames should be set.")`. -/
def run_lvu_model_video_content (lvu_config : LVUConfig) (video_path : String) :
    Except String VideoContent :=
  let fps := lvu_config.fps
  let num_frames := lvu_config.num_frames
  let extra_kwargs := lvu_config.extra_kwargs.getD ⟨none, none⟩
  let max_pixels := extra_kwargs.max_pixels.getD (some (360 * 420))
  let min_pixels := extra_kwargs.min_pixels.getD none
  let vc0 : VideoContent :=
    { video := video_path, max_pixels := none, min_pixels := none,
      fps := none, nframes := none }
  let vc1 :=
    if max_pixels.isSome then { vc0 with max_pixels := max_pixels } else vc0
  let vc2 :=
    if min_pixels.isSome then { vc1 with min_pixels := min_pixels } else vc1
  match fps with
  | some f => .ok { vc2 with fps := some f }
  | none =>
      match num_frames with
      | some n => .ok { vc2 with nframes := some n }
      | none => .error "Either fps or num_frames should be set."

/-- A configuration with both `fps` and `num_frames` set. -/
def exampleBothConfig : LVUConfig :=
  { exampleEnabledConfig with fps := some 2, num_frames := some 8 }

/-- C8 counterexample: with both `fps = 2` and `num_frames = 8` configured,
`run_lvu_model` does not raise — it silently prefers `fps` and drops
`num_frames`, refuting the claim that the both-configured case is a fatal
configuration error. -/
theorem C8_counterexample :
    run_lvu_model_video_content exampleBothConfig "video.mp4" =
        .ok { video := "video.mp4", max_pixels := some (360 * 420),
              min_pixels := none, fps := some 2, nframes := none } ∧
      (run_lvu_model_video_content exampleBothConfig "video.mp4").isOk =
        true := by
  constructor
  · simp [run_lvu_model_video_content, exampleBothConfig,
      exampleEnabledConfig]
  · simp [run_lvu_model_video_content, exampleBothConfig,
      exampleEnabledConfig, Except.isOk, Except.toBool]

/-- C8 (amended): `run_lvu_model` raises the fatal configuration error exactly
when neither `fps` nor `num_frames` is configured; when `fps` is configured
(whether or not `num_frames` also is), it proceeds with `fps` installed and
`nframes` absent. -/
theorem C8_fps_nframes_config (lvu_config : LVUConfig) (video_path : String) :
    ((run_lvu_model_video_content lvu_config video_path).isOk = false ↔
        lvu_config.fps = none ∧ lvu_config.num_frames = none) ∧
      (∀ f, lvu_config.fps = some f →
        ∃ vc, run_lvu_model_video_content lvu_config video_path = .ok vc ∧
          vc.fps = some f ∧ vc.nframes = none) := by
  constructor
  · cases hf : lvu_config.fps with
    | some f =>
        simp [run_lvu_model_video_content, hf, Except.isOk, Except.toBool]
    | none =>
        cases hn : lvu_config.num_frames with
        | some n =>
            simp [run_lvu_model_video_content, hf, hn, Except.isOk,
              Except.toBool]
        | none =>
            simp [run_lvu_model_video_content, hf, hn, Except.isOk,
              Except.toBool]
  · intro f hf
    unfold run_lvu_model_video_content
    rw [hf]
    dsimp only
    by_cases h1 :
        ((lvu_config.extra_kwargs.getD ⟨none, none⟩).max_pixels.getD
          (some (360 * 420))).isSome <;>
      by_cases h2 :
          ((lvu_config.extra_kwargs.getD ⟨none, none⟩).min_pixels.getD
            none).isSome <;>
        simp [h1, h2]

/-- Witness for C8 at the both-configured concrete input. -/
theorem C8_fps_nframes_config_witness :
    ((run_lvu_model_video_content exampleBothConfig "video.mp4").isOk =
          false ↔
        exampleBothConfig.fps = none ∧ exampleBothConfig.num_frames = none) ∧
      (∀ f, exampleBothConfig.fps = some f →
        ∃ vc, run_lvu_model_video_content exampleBothConfig "video.mp4" =
            .ok vc ∧ vc.fps = some f ∧ vc.nframes = none) :=
  C8_fps_nframes_config exampleBothConfig "video.mp4"

/-! ## Chunked prefill driver: group splitting and token shares -/

/-- The group lengths produced by `video_inputs[0].split(video_group_size)`:
full chunks of `size` frames, then the remainder chunk when the frame count is
not a multiple of the group size. -/
def splitSizes (total size : ℕ) : List ℕ :=
  List.replicate (total / size) size ++
    (if total % size = 0 then [] else [total % size])

/-- The per-group video-token counts of the driver (line 310):
`int(n_video_tokens * (len(group) / len(video_inputs[0])))` for each group,
i.e. the truncated proportional share of the total token count. -/
def video_groups_tokens (n_video_tokens total : ℕ) (groups : List ℕ) :
    List ℤ :=
  groups.map (fun g => ⌊((n_video_tokens * g : ℕ) : ℚ) / (total : ℚ)⌋)

/-- Group lengths sum back to the total frame count. -/
lemma splitSizes_sum (total size : ℕ) :
    (splitSizes total size).sum = total := by
  unfold splitSizes
  rcases Nat.eq_zero_or_pos (total % size) with hmod | hmod
  · have hdvd := Nat.dvd_of_mod_eq_zero hmod
    simp [hmod, List.sum_replicate, Nat.div_mul_cancel hdvd]
  · have hne : total % size ≠ 0 := Nat.pos_iff_ne_zero.mp hmod
    simp only [if_neg hne, List.sum_append, List.sum_replicate, smul_eq_mul,
      List.sum_cons, List.sum_nil, add_zero]
    rw [Nat.mul_comm]
    exact Nat.div_add_mod total size

/-- An exact proportional share contributes its exact value after the `int()`
truncation. -/
lemma floor_share_mul (n g L : ℕ) (hL : 0 < L)
    (hdvd : (L : ℤ) ∣ ((n * g : ℕ) : ℤ)) :
    ⌊((n * g : ℕ) : ℚ) / (L : ℚ)⌋ * (L : ℤ) = ((n * g : ℕ) : ℤ) := by
  obtain ⟨c, hc⟩ := hdvd
  have hL0 : (L : ℚ) ≠ 0 := by exact_mod_cast hL.ne'
  have hval : ((n * g : ℕ) : ℚ) / (L : ℚ) = (c : ℚ) := by
    have hcq : ((n * g : ℕ) : ℚ) = (L : ℚ) * (c : ℚ) := by exact_mod_cast hc
    rw [hcq, mul_div_cancel_left₀ _ hL0]
  rw [hval, Int.floor_intCast, mul_comm]
  exact hc.symm

/-- Summed truncated shares, scaled by the total frame count. -/
lemma video_groups_tokens_sum_mul (n L : ℕ) (hL : 0 < L) (gs : List ℕ)
    (hdvd : ∀ g ∈ gs, (L : ℤ) ∣ ((n * g : ℕ) : ℤ)) :
    (video_groups_tokens n L gs).sum * (L : ℤ) = (n : ℤ) * (gs.sum : ℤ) := by
  induction gs with
  | nil => simp [video_groups_tokens]
  | cons g t ih =>
      have hg := hdvd g (List.mem_cons_self g t)
      have ht := ih (fun x hx => hdvd x (List.mem_cons_of_mem g hx))
      simp only [video_groups_tokens, List.map_cons, List.sum_cons] at ht ⊢
      rw [add_mul, floor_share_mul n g L hL hg, ht]
      push_cast
      ring

/-- C2 counterexample: with 4 sampled frames, group size 2 (so both groups have
even length, passing the driver's evenness assertion) and a total of 5 video
tokens, the truncated per-group shares are 2 and 2, summing to 4 ≠ 5 — the
conservation law fails for a token count not proportional to the frame
count. -/
theorem C2_counterexample :
    splitSizes 4 2 = [2, 2] ∧
      ((splitSizes 4 2).all (fun g => g % 2 == 0)) = true ∧
      video_groups_tokens 5 4 (splitSizes 4 2) = [2, 2] ∧
      (video_groups_tokens 5 4 (splitSizes 4 2)).sum ≠ (5 : ℤ) := by
  have h : video_groups_tokens 5 4 (splitSizes 4 2) = [2, 2] := by
    have hs : splitSizes 4 2 = [2, 2] := by decide
    rw [hs]
    simp only [video_groups_tokens, List.map_cons, List.map_nil]
    norm_num
  refine ⟨by decide, by decide, h, ?_⟩
  rw [h]
  decide

/-- C2 (amended): whenever every group's proportional share of the video-token
count is integral — `L ∣ n·g` for each group length `g`, as holds for the Qwen
processor, whose video-token count is proportional to the number of frame
pairs — the truncated per-group token counts sum exactly to the total count
`n`. -/
theorem C2_token_conservation (n L size : ℕ) (hL : 0 < L)
    (hdvd : ∀ g ∈ splitSizes L size, (L : ℤ) ∣ ((n * g : ℕ) : ℤ)) :
    (video_groups_tokens n L (splitSizes L size)).sum = (n : ℤ) := by
  have h := video_groups_tokens_sum_mul n L hL (splitSizes L size) hdvd
  rw [splitSizes_sum L size] at h
  have hL0 : (L : ℤ) ≠ 0 := by exact_mod_cast hL.ne'
  exact mul_right_cancel₀ hL0 h

/-- Witness for C2 at a proportional input: 10 tokens over 4 frames split in
groups of 2. -/
theorem C2_token_conservation_witness :
    (video_groups_tokens 10 4 (splitSizes 4 2)).sum = (10 : ℤ) :=
  C2_token_conservation 10 4 2 (by norm_num) (by decide)

/-! ## Chunked prefill driver: final generation phase -/

/-- The final phase of `chat_lvu_model` (lines 384-401): the strict past-length
assertion, the slice of trailing tokens past the consumed prefix, the toggling
of the global enable flag to `do_top_k_for_query` for the generation call with
its restoration afterwards, and the trimming of the prompt-length prefix from
the generated sequence.  Generation is an opaque collaborator that reads the
configuration; the returned triple carries the trimmed output together with
the configuration as seen by the generation call and the configuration after
restoration, making the transient mutation of the shared configuration
explicit. -/
def chat_lvu_finalize (lvu_config : LVUConfig) (input_ids : List ℕ)
    (past_len : ℕ) (generate : LVUConfig → List ℕ → List ℕ) :
    Except String (List ℕ × LVUConfig × LVUConfig) :=
  if past_len < input_ids.length then
    let final_input_ids := input_ids.drop past_len
    let cache_enable := lvu_config.enable
    let gen_config :=
      { lvu_config with enable := lvu_config.do_top_k_for_query }
    let generated_ids := generate gen_config final_input_ids
    let restored_config := { gen_config with enable := cache_enable }
    .ok (generated_ids.drop final_input_ids.length, gen_config,
      restored_config)
  else
    .error "The past length should be less than the final input length."

/-- C6: after the video groups are consumed, `chat_lvu_model` fails fast unless
the accumulated past-length pointer is strictly below the total input length,
and the final generation call is reached exactly when it is — in which case at
least one trailing token remains. -/
theorem C6_past_len_guard (lvu_config : LVUConfig) (input_ids : List ℕ)
    (past_len : ℕ) (generate : LVUConfig → List ℕ → List ℕ) :
    ((chat_lvu_finalize lvu_config input_ids past_len generate).isOk = true ↔
        past_len < input_ids.length) ∧
      (past_len < input_ids.length →
        0 < (input_ids.drop past_len).length) ∧
      (input_ids.length ≤ past_len →
        chat_lvu_finalize lvu_config input_ids past_len generate =
          .error
            "The past length should be less than the final input length.") := by
  refine ⟨?_, ?_, ?_⟩
  · unfold chat_lvu_finalize
    split
    · rename_i hlt
      simpa [Except.isOk, Except.toBool] using hlt
    · rename_i hge
      simpa [Except.isOk, Except.toBool] using hge
  · intro hlt
    simp only [List.length_drop]
    omega
  · intro hge
    unfold chat_lvu_finalize
    rw [if_neg (by omega)]

/-- Witness for C6: three input tokens with two already consumed. -/
theorem C6_past_len_guard_witness :
    ((chat_lvu_finalize exampleEnabledConfig [1, 2, 3] 2
          (fun _ l => l)).isOk = true ↔ 2 < ([1, 2, 3] : List ℕ).length) ∧
      (2 < ([1, 2, 3] : List ℕ).length →
        0 < (([1, 2, 3] : List ℕ).drop 2).length) ∧
      (([1, 2, 3] : List ℕ).length ≤ 2 →
        chat_lvu_finalize exampleEnabledConfig [1, 2, 3] 2 (fun _ l => l) =
          .error
            "The past length should be less than the final input length.") :=
  C6_past_len_guard exampleEnabledConfig [1, 2, 3] 2 (fun _ l => l)

/-- C7: when the final phase runs, the configuration handed to the generation
call has its enable flag set to `do_top_k_for_query` and every other field
unchanged, and the configuration after restoration equals the original
configuration exactly. -/
theorem C7_enable_toggle (lvu_config : LVUConfig) (input_ids : List ℕ)
    (past_len : ℕ) (generate : LVUConfig → List ℕ → List ℕ)
    (out : List ℕ) (d r : LVUConfig)
    (h : chat_lvu_finalize lvu_config input_ids past_len generate =
      .ok (out, d, r)) :
    (d.enable = lvu_config.do_top_k_for_query ∧
        d.top_k = lvu_config.top_k ∧
        d.do_top_k_for_query = lvu_config.do_top_k_for_query ∧
        d.video_group_size = lvu_config.video_group_size ∧
        d.adaptive_local_attention = lvu_config.adaptive_local_attention ∧
        d.cache_dir = lvu_config.cache_dir ∧
        d.fps = lvu_config.fps ∧
        d.num_frames = lvu_config.num_frames ∧
        d.use_tqdm = lvu_config.use_tqdm ∧
        d.extra_kwargs = lvu_config.extra_kwargs) ∧
      r = lvu_config := by
  unfold chat_lvu_finalize at h
  split at h
  · simp only [Except.ok.injEq, Prod.mk.injEq] at h
    obtain ⟨-, h2, h3⟩ := h
    subst h2
    subst h3
    exact ⟨⟨rfl, rfl, rfl, rfl, rfl, rfl, rfl, rfl, rfl, rfl⟩, rfl⟩
  · exact absurd h (by simp)

/-- A configuration whose enable flag differs from its query-time flag. -/
def exampleToggleConfig : LVUConfig :=
  { exampleEnabledConfig with enable := true, do_top_k_for_query := false }

/-- Witness for C7: a concrete finalize run on the toggling configuration. -/
theorem C7_enable_toggle_witness :
    ((({ exampleToggleConfig with
            enable := exampleToggleConfig.do_top_k_for_query } :
          LVUConfig).enable = exampleToggleConfig.do_top_k_for_query ∧
        ({ exampleToggleConfig with
            enable := exampleToggleConfig.do_top_k_for_query } :
          LVUConfig).top_k = exampleToggleConfig.top_k ∧
        ({ exampleToggleConfig with
            enable := exampleToggleConfig.do_top_k_for_query } :
          LVUConfig).do_top_k_for_query =
            exampleToggleConfig.do_top_k_for_query ∧
        ({ exampleToggleConfig with
            enable := exampleToggleConfig.do_top_k_for_query } :
          LVUConfig).video_group_size =
            exampleToggleConfig.video_group_size ∧
        ({ exampleToggleConfig with
            enable := exampleToggleConfig.do_top_k_for_query } :
          LVUConfig).adaptive_local_attention =
            exampleToggleConfig.adaptive_local_attention ∧
        ({ exampleToggleConfig with
            enable := exampleToggleConfig.do_top_k_for_query } :
          LVUConfig).cache_dir = exampleToggleConfig.cache_dir ∧
        ({ exampleToggleConfig with
            enable := exampleToggleConfig.do_top_k_for_query } :
          LVUConfig).fps = exampleToggleConfig.fps ∧
        ({ exampleToggleConfig with
            enable := exampleToggleConfig.do_top_k_for_query } :
          LVUConfig).num_frames = exampleToggleConfig.num_frames ∧
        ({ exampleToggleConfig with
            enable := exampleToggleConfig.do_top_k_for_query } :
          LVUConfig).use_tqdm = exampleToggleConfig.use_tqdm ∧
        ({ exampleToggleConfig with
            enable := exampleToggleConfig.do_top_k_for_query } :
          LVUConfig).extra_kwargs = exampleToggleConfig.extra_kwargs) ∧
      exampleToggleConfig = exampleToggleConfig) :=
  C7_enable_toggle exampleToggleConfig [1, 2, 3] 2 (fun _ l => l) []
    { exampleToggleConfig with
        enable := exampleToggleConfig.do_top_k_for_query }
    exampleToggleConfig rfl

/-! ## Video frame cache (persisted state of the frame-extraction path) -/

/-- The serialized payload of one video cache file: the `image_inputs`,
`video_inputs`, and `video_kwargs` produced by `process_vision_info`. -/
structure VisionOutputs where
  image_inputs : List Tensor
  video_inputs : List (List Tensor)
  video_kwargs : List (String × ℚ)
deriving DecidableEq

/-- One conversation's vision info as used for the cache key: the video file
stem and the stringified extraction parameters (every key of the video content
dict other than `type` and `video`). -/
structure VisionInfo where
  stem : String
  params : List (String × String)
deriving DecidableEq

/-- The cache key (lines 255-258): the video stem with each extraction
parameter appended as `_k=v`. -/
def cache_key_of (info : VisionInfo) : String :=
  info.params.foldl (fun acc kv => acc ++ "_" ++ kv.1 ++ "=" ++ kv.2)
    info.stem

/-- The on-disk cache directory, threaded explicitly as a store of persisted
files keyed by cache key. -/
abbrev VideoCacheDir := List (String × VisionOutputs)

/-- File lookup in the cache directory (`cache_file.exists()` plus
`torch.load`). -/
def lookupCache : VideoCacheDir → String → Option VisionOutputs
  | [], _ => none
  | (k, v) :: rest, key => if k = key then some v else lookupCache rest key

/-- The frame-extraction path of `chat_lvu_model` (lines 251-279) with the
filesystem threaded explicitly: compute the cache key; on a miss decode via
`process_vision_info` (the opaque external decoder) and persist the result
(`torch.save`); on a hit load the persisted result without decoding.  The
boolean records whether this invocation decoded the video. -/
def chat_lvu_fetch_vision (process_vision_info : VisionInfo → VisionOutputs)
    (cache : VideoCacheDir) (info : VisionInfo) :
    VisionOutputs × VideoCacheDir × Bool :=
  let key := cache_key_of info
  match lookupCache cache key with
  | some stored => (stored, cache, false)
  | none =>
      let outputs := process_vision_info info
      (outputs, (key, outputs) :: cache, true)

/-- C9: calling the frame-extraction path twice with the same video path and
identical extraction parameters, starting from a cache directory with no entry
for their key, decodes the video exactly once: the first call decodes and
persists, the second call does not decode and returns exactly the outputs the
first call produced and saved. -/
theorem C9_cache_idempotent (process_vision_info : VisionInfo → VisionOutputs)
    (cache : VideoCacheDir) (info : VisionInfo)
    (hmiss : lookupCache cache (cache_key_of info) = none) :
    let r1 := chat_lvu_fetch_vision process_vision_info cache info
    let r2 := chat_lvu_fetch_vision process_vision_info r1.2.1 info
    r1.2.2 = true ∧ r2.2.2 = false ∧ r2.1 = r1.1 := by
  simp [chat_lvu_fetch_vision, hmiss, lookupCache]

/-- Witness for C9: a concrete decoder, an empty cache directory, and one
video with one extraction parameter. -/
theorem C9_cache_idempotent_witness :
    let r1 := chat_lvu_fetch_vision (fun _ => ⟨[[1]], [[[2]]], [("fps", 2)]⟩)
      [] ⟨"video", [("fps", "2")]⟩
    let r2 := chat_lvu_fetch_vision (fun _ => ⟨[[1]], [[[2]]], [("fps", 2)]⟩)
      r1.2.1 ⟨"video", [("fps", "2")]⟩
    r1.2.2 = true ∧ r2.2.2 = false ∧ r2.1 = r1.1 :=
  C9_cache_idempotent (fun _ => ⟨[[1]], [[[2]]], [("fps", 2)]⟩) []
    ⟨"video", [("fps", "2")]⟩ rfl

/-! ## Overridden initial cache position -/

/-- The `past_key_values` cache as `_get_initial_cache_position` inspects it:
either a legacy tuple-of-tensors, whose physical length is
`cache[0][0].shape[2]`, or a structured `Cache` object, whose
`get_seq_length()` may report a length or `None`. -/
inductive CacheObj where
  | legacy (physical_len : ℕ)
  | structured (seq_length : Option ℕ)
deriving DecidableEq

/-- The past length derived from an optional cache: 0 without a cache, the
physical tuple length of a legacy cache, and the reported sequence length of a
structured cache when not `None`. -/
def physical_past_length : Option CacheObj → ℕ
  | none => 0
  | some (.legacy l) => l
  | some (.structured (some l)) => l
  | some (.structured none) => 0

/-- The `model_kwargs` dict as read and written by
`_get_initial_cache_position`.  Embedding vectors are kept per position so a
list's length is the sequence length. -/
structure ModelKwargs where
  cache_position : Option (List ℕ)
  inputs_embeds : Option (List Tensor)
  decoder_inputs_embeds : Option (List Tensor)
  past_key_values : Option CacheObj
deriving DecidableEq

/-- The input length whose arange becomes the cache position: the length of
`inputs_embeds` for a decoder-only model, of `decoder_inputs_embeds` for an
encoder-decoder model, and of `input_ids` otherwise. -/
def effective_input_len (is_encoder_decoder : Bool) (input_ids : List ℕ)
    (model_kwargs : ModelKwargs) : ℕ :=
  match model_kwargs.inputs_embeds, is_encoder_decoder with
  | some embeds, false => embeds.length
  | _, _ =>
      match model_kwargs.decoder_inputs_embeds, is_encoder_decoder with
      | some embeds, true => embeds.length
      | _, _ => input_ids.length

/-- The overridden `_get_initial_cache_position` (lines 152-178), installed on
the model by `init_lvu_model`: return `model_kwargs` untouched when
`cache_position` is already present; otherwise build the arange
`[0, …, len-1]` over the applicable input length (the cumsum-of-ones idiom),
slice off the first `past_length` entries when a cache is present, and install
the result under `cache_position`. -/
def _get_initial_cache_position (is_encoder_decoder : Bool)
    (input_ids : List ℕ) (model_kwargs : ModelKwargs) : ModelKwargs :=
  if model_kwargs.cache_position.isSome then model_kwargs
  else
    let cache_position : List ℕ :=
      match model_kwargs.inputs_embeds, is_encoder_decoder with
      | some embeds, false => List.range embeds.length
      | _, _ =>
          match model_kwargs.decoder_inputs_embeds, is_encoder_decoder with
          | some embeds, true => List.range embeds.length
          | _, _ => List.range input_ids.length
    match model_kwargs.past_key_values with
    | none => { model_kwargs with cache_position := some cache_position }
    | some cache =>
        let past_length : ℕ :=
          match cache with
          | .legacy l => l
          | .structured (some l) => l
          | .structured none => 0
        { model_kwargs with
            cache_position := some (cache_position.drop past_length) }

/-- The arange the function builds is the arange over the effective input
length. -/
lemma range_effective_input_len (is_encoder_decoder : Bool)
    (input_ids : List ℕ) (model_kwargs : ModelKwargs) :
    (match model_kwargs.inputs_embeds, is_encoder_decoder with
      | some embeds, false => List.range embeds.length
      | _, _ =>
          match model_kwargs.decoder_inputs_embeds, is_encoder_decoder with
          | some embeds, true => List.range embeds.length
          | _, _ => List.range input_ids.length) =
      List.range
        (effective_input_len is_encoder_decoder input_ids model_kwargs) := by
  unfold effective_input_len
  cases model_kwargs.inputs_embeds <;> cases is_encoder_decoder <;>
    cases model_kwargs.decoder_inputs_embeds <;> rfl

/-- C10: when `cache_position` is already present the function returns
`model_kwargs` with no entry added, removed, or modified; otherwise it
installs under `cache_position` the arange over the applicable input length
with the first `past_length` entries dropped — `past_length` being the
physical sequence length of the existing cache — and leaves every other entry
unchanged. -/
theorem C10_initial_cache_position (is_encoder_decoder : Bool)
    (input_ids : List ℕ) (model_kwargs : ModelKwargs) :
    (model_kwargs.cache_position.isSome = true →
      _get_initial_cache_position is_encoder_decoder input_ids model_kwargs =
        model_kwargs) ∧
      (model_kwargs.cache_position = none →
        let res :=
          _get_initial_cache_position is_encoder_decoder input_ids
            model_kwargs
        res.cache_position =
            some ((List.range
                (effective_input_len is_encoder_decoder input_ids
                  model_kwargs)).drop
              (physical_past_length model_kwargs.past_key_values)) ∧
          res.inputs_embeds = model_kwargs.inputs_embeds ∧
          res.decoder_inputs_embeds = model_kwargs.decoder_inputs_embeds ∧
          res.past_key_values = model_kwargs.past_key_values) := by
  constructor
  · intro h
    unfold _get_initial_cache_position
    rw [if_pos h]
  · intro h
    unfold _get_initial_cache_position
    rw [if_neg (by simp [h])]
    cases hpkv : model_kwargs.past_key_values with
    | none =>
        simp [physical_past_length, hpkv,
          range_effective_input_len is_encoder_decoder input_ids model_kwargs]
    | some c =>
        cases c with
        | legacy l =>
            simp [physical_past_length, hpkv,
              range_effective_input_len is_encoder_decoder input_ids
                model_kwargs]
        | structured s =>
            cases s <;>
              simp [physical_past_length, hpkv,
                range_effective_input_len is_encoder_decoder input_ids
                  model_kwargs]

/-- Witness for C10: a kwargs dict that already has a cache position is left
untouched, and one without it gets the arange over four input ids with the
first two entries (the legacy cache's physical length) dropped. -/
theorem C10_initial_cache_position_witness :
    _get_initial_cache_position false [5, 6, 7, 8]
        ⟨some [0], none, none, none⟩ = ⟨some [0], none, none, none⟩ ∧
      (_get_initial_cache_position false [5, 6, 7, 8]
          ⟨none, none, none, some (.legacy 2)⟩).cache_position =
        some [2, 3] :=
  ⟨(C10_initial_cache_position false [5, 6, 7, 8]
      ⟨some [0], none, none, none⟩).1 rfl,
    ((C10_initial_cache_position false [5, 6, 7, 8]
        ⟨none, none, none, some (.legacy 2)⟩).2 rfl).1.trans (by decide)⟩

end LVU
